import Mathlib

set_option maxRecDepth 8192

/-!
Verification of the Feedback Pulse worker (data-cleaning.js, search-agent.js,
ai-agent.js, index.js) against its natural-language specification.

JavaScript strings are modelled as lists of characters; the JS substring
test String.prototype.includes is modelled by hasSubstr; toLowerCase by
an ASCII character map.  Every definition below is a direct translation of
the corresponding JS function, with the source location noted.
-/

/-- JavaScript strings as lists of characters. -/
abbrev Str : Type := List Char

/-- Coerce a Lean string literal to the character-list model. -/
def str (s : String) : Str := s.data

/-- Tests whether the second list is an initial segment of the first
(helper for the JS String.prototype.includes model). -/
def startsWith : Str → Str → Bool
  | _, [] => true
  | [], _ :: _ => false
  | c :: cs, p :: ps => c = p && startsWith cs ps

/-- Model of JS String.prototype.includes: substring containment. -/
def hasSubstr : Str → Str → Bool
  | [], p => p.isEmpty
  | c :: cs, p => startsWith (c :: cs) p || hasSubstr cs p

/-- Model of JS String.prototype.toLowerCase (ASCII range). -/
def lowerL (l : Str) : Str := l.map Char.toLower

/-- The apostrophe character (JS escape in string literals). -/
def apos : Char := Char.ofNat 39

/-- The JS string literal for "can" followed by an apostrophe and "t",
used by calculateUrgencyScore (data-cleaning.js line 143). -/
def cant : Str := str "can" ++ [apos] ++ str "t"

/-- Membership of a character in the JS regex whitespace class (the ASCII
part: space, tab, newline, carriage return, vertical tab, form feed). -/
def isWs (c : Char) : Bool :=
  c = ' ' || c = '\t' || c = '\n' || c = '\r' || c = Char.ofNat 11 || c = Char.ofNat 12

/-- Model of JS String.prototype.trim: drop whitespace from both ends
(used by cleanText, data-cleaning.js line 231). -/
def trimWs (l : Str) : Str :=
  ((l.dropWhile isWs).reverse.dropWhile isWs).reverse

/-- State machine for the global replacement of whitespace runs by a single
space, text.replace with the pattern of one-or-more whitespace characters
(data-cleaning.js line 232).  The Boolean flag records whether the previous
input character was whitespace (i.e. whether we are inside a run whose
single replacement space was already produced). -/
def collapseWsAux : Bool → Str → Str
  | _, [] => []
  | true, c :: cs => if isWs c then collapseWsAux true cs else c :: collapseWsAux false cs
  | false, c :: cs => if isWs c then ' ' :: collapseWsAux true cs else c :: collapseWsAux false cs

/-- Each maximal run of whitespace becomes a single space. -/
def collapseWs (l : Str) : Str := collapseWsAux false l

/-- State machine for the global replacement of runs of three or more
newlines by exactly two newlines (data-cleaning.js line 233).  The counter
is the number of consecutive newlines seen so far: the first two newlines
of a run are kept, the rest are dropped. -/
def collapseNlAux : Nat → Str → Str
  | _, [] => []
  | run, c :: cs =>
    if c = '\n' then
      if run + 1 ≤ 2 then '\n' :: collapseNlAux (run + 1) cs
      else collapseNlAux (run + 1) cs
    else c :: collapseNlAux 0 cs

/-- Runs of three or more newlines become exactly two newlines. -/
def collapseNewlines (l : Str) : Str := collapseNlAux 0 l

/-- cleanText (data-cleaning.js lines 227-235): trim, collapse whitespace
runs to a single space, collapse runs of three or more newlines to two,
truncate to 5000 characters.  The empty string is returned unchanged
(the falsy check on the argument). -/
def cleanText (text : Str) : Str :=
  if text.isEmpty then []
  else ((collapseNewlines (collapseWs (trimWs text))).take 5000)

/-- Base urgency score lookup (data-cleaning.js lines 131-137):
Critical 10, High 8, Medium 5, Low 3, anything else 5. -/
def urgencyBase (urgency : Str) : Nat :=
  if urgency = str "Critical" then 10
  else if urgency = str "High" then 8
  else if urgency = str "Medium" then 5
  else if urgency = str "Low" then 3
  else 5

/-- calculateUrgencyScore (data-cleaning.js lines 127-151): base score from
the urgency lookup, keyword boosts on the lowercased feedback text,
Enterprise tier boost, clamped to the interval from 1 to 10. -/
def calculateUrgencyScore (urgency feedbackText customerTier : Str) : Nat :=
  let text := lowerL feedbackText
  let score := urgencyBase urgency
  let score := score + (if hasSubstr text (str "urgent") || hasSubstr text (str "critical") then 2 else 0)
  let score := score + (if hasSubstr text (str "blocking") || hasSubstr text cant then 1 else 0)
  let score := score + (if hasSubstr text (str "production") || hasSubstr text (str "outage") then 2 else 0)
  let score := score + (if hasSubstr text (str "data loss") || hasSubstr text (str "security") then 2 else 0)
  let score := score + (if customerTier = str "Enterprise" then 1 else 0)
  min 10 (max 1 score)

/-! Search agent (search-agent.js): query-intent record, keyword parser and
SQL builder. -/

/-- The intent record built by the search agent (search-agent.js
lines 322-330): null fields are None, the urgency and sentiment filters are
lists of values, sortBy and limit may be absent on intents supplied by
other callers. -/
structure QueryIntent where
  urgency : Option (List Str)
  sentiment : Option (List Str)
  product : Option Str
  theme : Option Str
  customerTier : Option Str
  sortBy : Option Str
  limit : Option Nat
deriving DecidableEq

/-- JS truthiness of an optional string: null/undefined and the empty
string are falsy. -/
def jsTruthyL : Option Str → Bool
  | some s => !s.isEmpty
  | none => false

/-- JS expression "o || d" for an optional string o with default d. -/
def jsOrL : Option Str → Str → Str
  | some s, d => if s.isEmpty then d else s
  | none, d => d

/-- JS expression "o || d" for an optional number o with default d
(0 is falsy in JS). -/
def jsOrN : Option Nat → Nat → Nat
  | some n, d => if n = 0 then d else n
  | none, d => d

/-- Model of Array.prototype.join with the given separator. -/
def joinSep (sep : Str) : List Str → Str
  | [] => []
  | [s] => s
  | s :: t :: rest => s ++ sep ++ joinSep sep (t :: rest)

/-- The placeholder list of a multi-valued filter,
values.map(() => ?).join(,) (search-agent.js lines 101 and 107). -/
def placeholdersL (n : Nat) : Str := joinSep (str ",") (List.replicate n (str "?"))

/-- Decimal digit to character (for the numeric template interpolation). -/
def digitChar : Nat → Char
  | 0 => '0'
  | 1 => '1'
  | 2 => '2'
  | 3 => '3'
  | 4 => '4'
  | 5 => '5'
  | 6 => '6'
  | 7 => '7'
  | 8 => '8'
  | 9 => '9'
  | _ => '*'

/-- Fuelled decimal conversion (the fuel only bounds the recursion). -/
def natToStrAux : Nat → Nat → Str
  | 0, _ => []
  | fuel + 1, n =>
    if n < 10 then [digitChar n]
    else natToStrAux fuel (n / 10) ++ [digitChar (n % 10)]

/-- Decimal string of a natural number, the JS template interpolation of a
number into a string. -/
def natToStr (n : Nat) : Str := natToStrAux (n + 1) n

/-- Number of question-mark placeholders in a string. -/
def countQ (s : Str) : Nat := s.count '?'

/-- Number of urgency filter values (0 when the filter is absent). -/
def urgLen (i : QueryIntent) : Nat :=
  match i.urgency with
  | some l => l.length
  | none => 0

/-- Number of sentiment filter values (0 when the filter is absent). -/
def sentLen (i : QueryIntent) : Nat :=
  match i.sentiment with
  | some l => l.length
  | none => 0

/-- Urgency condition clause (search-agent.js lines 100-104): present only
for a non-empty urgency list, with one placeholder per value. -/
def urgencyConds (i : QueryIntent) : List Str :=
  match i.urgency with
  | some l => if 0 < l.length then [str "sa.urgency IN (" ++ placeholdersL l.length ++ str ")"] else []
  | none => []

/-- Sentiment condition clause (search-agent.js lines 106-110). -/
def sentimentConds (i : QueryIntent) : List Str :=
  match i.sentiment with
  | some l => if 0 < l.length then [str "sa.sentiment IN (" ++ placeholdersL l.length ++ str ")"] else []
  | none => []

/-- Product condition clause (search-agent.js lines 112-115). -/
def productConds (i : QueryIntent) : List Str :=
  if jsTruthyL i.product then [str "pa.product_name = ?"] else []

/-- Customer-tier condition clause (search-agent.js lines 117-120). -/
def tierConds (i : QueryIntent) : List Str :=
  if jsTruthyL i.customerTier then [str "u.customer_tier = ?"] else []

/-- Theme condition clause (search-agent.js lines 122-125). -/
def themeConds (i : QueryIntent) : List Str :=
  if jsTruthyL i.theme then [str "t.theme_name LIKE ?"] else []

/-- All condition clauses, in the order the source pushes them. -/
def conditionsOf (i : QueryIntent) : List Str :=
  urgencyConds i ++ sentimentConds i ++ productConds i ++ tierConds i ++ themeConds i

/-- The bound parameter contributed by an optional single-valued filter. -/
def singleParam : Option Str → List Str
  | some s => if s.isEmpty then [] else [s]
  | none => []

/-- The bound parameter contributed by the theme filter: the value wrapped
in percent signs for the LIKE clause (search-agent.js line 124). -/
def themeParam : Option Str → List Str
  | some s => if s.isEmpty then [] else [str "%" ++ s ++ str "%"]
  | none => []

/-- The ordered parameter list, as pushed by the source: urgency values,
sentiment values, product, customer tier, wrapped theme. -/
def paramsOf (i : QueryIntent) : List Str :=
  i.urgency.getD [] ++ i.sentiment.getD [] ++ singleParam i.product
    ++ singleParam i.customerTier ++ themeParam i.theme

/-- The fixed SELECT prologue of generateSQL (search-agent.js
lines 69-94). -/
def sqlHeader : Str := str "\n      SELECT \n        fm.feedback_id,\n        fm.original_id,\n        fm.feedback_text,\n        fm.created_date,\n        fm.urgency_score,\n        fm.value_score,\n        u.email,\n        u.username,\n        u.customer_tier,\n        pa.product_name,\n        s.source_name,\n        sa.sentiment,\n        sa.urgency,\n        sa.ai_summary,\n        GROUP_CONCAT(t.theme_name) as themes\n      FROM feedback_master fm\n      LEFT JOIN users u ON fm.user_id = u.user_id\n      LEFT JOIN product_areas pa ON fm.product_area_id = pa.product_area_id\n      LEFT JOIN sources s ON fm.source_id = s.source_id\n      LEFT JOIN sentiment_analysis sa ON fm.feedback_id = sa.feedback_id\n      LEFT JOIN feedback_themes ft ON fm.feedback_id = ft.feedback_id\n      LEFT JOIN themes t ON ft.theme_id = t.theme_id\n      WHERE 1=1\n    "

/-- generateSQL (search-agent.js lines 68-144): header, the AND-joined
filter conditions, GROUP BY, ORDER BY with the interpolated sort key, and
the interpolated LIMIT; the second component is the ordered parameter
list. -/
def generateSQL (intent : QueryIntent) : Str × List Str :=
  let conditions := conditionsOf intent
  let sql1 :=
    if 0 < conditions.length then sqlHeader ++ str " AND " ++ joinSep (str " AND ") conditions
    else sqlHeader
  let sql2 := sql1 ++ str " GROUP BY fm.feedback_id"
  let sortBy := jsOrL intent.sortBy (str "urgency_score")
  let sql3 := sql2 ++ str " ORDER BY " ++ sortBy ++ str " DESC, fm.created_date DESC"
  let limit := jsOrN intent.limit 20
  let sql4 := sql3 ++ str " LIMIT " ++ natToStr limit
  (sql4, paramsOf intent)

/-- Two intents have the same shape when they agree on everything except
the actual filter values: the number of urgency and sentiment values, the
presence of the single-valued filters, the sort key and the limit. -/
def sameShape (i j : QueryIntent) : Prop :=
  urgLen i = urgLen j ∧ sentLen i = sentLen j
    ∧ jsTruthyL i.product = jsTruthyL j.product
    ∧ jsTruthyL i.customerTier = jsTruthyL j.customerTier
    ∧ jsTruthyL i.theme = jsTruthyL j.theme
    ∧ i.sortBy = j.sortBy ∧ i.limit = j.limit

/-- The sort keys the repository itself ever puts into an intent
(the parser and the QUERY_TEMPLATES constants). -/
def allowedSortColumns : List Str := [str "urgency_score", str "created_date"]

/-- A hostile intent used as a counterexample input: generateSQL never
validates the sort key or the limit. -/
def injectionIntent : QueryIntent :=
  { urgency := none, sentiment := none, product := none, theme := none,
    customerTier := none,
    sortBy := some (str "feedback_text; DROP TABLE users --"),
    limit := some 999 }

/-- First maximal run of decimal digits in the text, the regex match for
one-or-more digits (search-agent.js line 376). -/
def firstDigitRun : Str → Option Str
  | [] => none
  | c :: cs => if c.isDigit then some (c :: cs.takeWhile Char.isDigit) else firstDigitRun cs

/-- JS parseInt on a digit run. -/
def digitsToNat (l : Str) : Nat := l.foldl (fun n c => n * 10 + (c.toNat - 48)) 0

/-- The simple-listing test (search-agent.js lines 333-339): the lowercased
query mentions review, show me or list and none of urgent, critical,
negative, positive. -/
def isSimpleReviewQuery (lq : Str) : Bool :=
  (hasSubstr lq (str "review") || hasSubstr lq (str "show me") || hasSubstr lq (str "list"))
    && !hasSubstr lq (str "urgent")
    && !hasSubstr lq (str "critical")
    && !hasSubstr lq (str "negative")
    && !hasSubstr lq (str "positive")

/-- Urgency filter from keywords (search-agent.js lines 344-348). -/
def urgencyOf (lq : Str) : Option (List Str) :=
  if hasSubstr lq (str "critical") || hasSubstr lq (str "urgent") then some [str "Critical"]
  else if hasSubstr lq (str "high priority") || hasSubstr lq (str "high") || hasSubstr lq (str "important") then
    some [str "Critical", str "High"]
  else none

/-- Sentiment filter from keywords (search-agent.js lines 351-355). -/
def sentimentOf (lq : Str) : Option (List Str) :=
  if hasSubstr lq (str "negative") || hasSubstr lq (str "complaints") || hasSubstr lq (str "complaining") then
    some [str "Negative", str "Frustrated"]
  else if hasSubstr lq (str "positive") || hasSubstr lq (str "happy") then some [str "Positive"]
  else none

/-- Customer-tier detection (search-agent.js lines 359-365): raw substring
checks in priority order enterprise, pro, free. -/
def tierOf (lq : Str) : Option Str :=
  if hasSubstr lq (str "enterprise") then some (str "Enterprise")
  else if hasSubstr lq (str "pro") then some (str "Pro")
  else if hasSubstr lq (str "free") then some (str "Free")
  else none

/-- Product detection (search-agent.js lines 368-373). -/
def productOf (lq : Str) : Option Str :=
  if hasSubstr lq (str "workers ai") then some (str "Workers AI")
  else if hasSubstr lq (str "workers") then some (str "Workers")
  else if hasSubstr lq (str "d1") then some (str "D1 Database")
  else if hasSubstr lq (str "workflow") then some (str "Workflows")
  else if hasSubstr lq (str "r2") then some (str "R2 Storage")
  else if hasSubstr lq (str "kv") then some (str "KV Storage")
  else none

/-- Limit resolution (search-agent.js lines 375-387): an embedded number in
the interval from 1 to 100 replaces the default 20, and afterwards a
listing keyword unconditionally sets the limit to 50. -/
def limitOfQuery (lq : Str) : Nat :=
  let base :=
    match firstDigitRun lq with
    | some ds => if 0 < digitsToNat ds ∧ digitsToNat ds ≤ 100 then digitsToNat ds else 20
    | none => 20
  if hasSubstr lq (str "list") || hasSubstr lq (str "show me") || hasSubstr lq (str "review") then 50
  else base

/-- parseIntentWithKeywords (search-agent.js lines 320-390): keyword-based
intent parsing on the lowercased query.  In simple-listing mode the urgency
and sentiment filters stay null; tier and product always apply; the theme
is never set; the sort key is always urgency_score. -/
def parseIntentWithKeywords (userQuery : Str) : QueryIntent :=
  let lq := lowerL userQuery
  { urgency := if isSimpleReviewQuery lq then none else urgencyOf lq,
    sentiment := if isSimpleReviewQuery lq then none else sentimentOf lq,
    product := productOf lq,
    theme := none,
    customerTier := tierOf lq,
    sortBy := some (str "urgency_score"),
    limit := some (limitOfQuery lq) }

/-! AI agent (ai-agent.js): keyword-inference fallbacks and the analysis
orchestration.  The two Workers AI sub-calls are modelled as Except-valued
inputs: an error value is a thrown call, a successful value is the parsed
response object, whose fields may be missing (the parse fallback). -/

/-- Negative keywords of the sentiment fallback (ai-agent.js line 571). -/
def negativeWords : List Str :=
  [str "hate", str "terrible", str "broken", str "frustrated", str "angry",
    str "awful", str "worst", str "unacceptable"]

/-- Positive keywords of the sentiment fallback (ai-agent.js line 572). -/
def positiveWords : List Str :=
  [str "love", str "great", str "amazing", str "excellent", str "fantastic",
    str "perfect", str "wonderful"]

/-- Frustration keywords of the sentiment fallback (ai-agent.js
line 573). -/
def frustratedWords : List Str :=
  [str "frustrated", str "annoying", str "confusing", str "difficult", str "struggling"]

/-- Number of words of the list occurring in the text (the filter-length
counts of ai-agent.js lines 575-577). -/
def countMatches (lowerText : Str) (words : List Str) : Nat :=
  (words.filter (fun w => hasSubstr lowerText w)).length

/-- inferSentiment (ai-agent.js lines 568-589): Frustrated when a
frustration keyword occurs or a negative keyword occurs together with the
substring "but"; otherwise by comparing the negative and positive counts,
with Neutral on a tie. -/
def inferSentiment (text : Str) : Str :=
  let lowerText := lowerL text
  let negativeCount := countMatches lowerText negativeWords
  let positiveCount := countMatches lowerText positiveWords
  let frustratedCount := countMatches lowerText frustratedWords
  if 0 < frustratedCount ∨ (0 < negativeCount ∧ hasSubstr lowerText (str "but") = true) then
    str "Frustrated"
  else if positiveCount < negativeCount then str "Negative"
  else if negativeCount < positiveCount then str "Positive"
  else str "Neutral"

/-- Critical keywords of the urgency fallback (ai-agent.js line 597). -/
def criticalWords : List Str :=
  [str "urgent", str "critical", str "production", str "outage", str "down",
    str "broken", str "data loss"]

/-- High keywords of the urgency fallback (ai-agent.js line 598). -/
def highWords : List Str :=
  [str "blocking", str "cant", str "failing", str "error", str "bug"]

/-- Low keywords of the urgency fallback (ai-agent.js line 599). -/
def lowWords : List Str :=
  [str "nice to have", str "suggestion", str "would love", str "future"]

/-- inferUrgency (ai-agent.js lines 594-611). -/
def inferUrgency (text : Str) : Str :=
  let lowerText := lowerL text
  if criticalWords.any (fun w => hasSubstr lowerText w) || hasSubstr lowerText (str "!!!") then
    str "Critical"
  else if highWords.any (fun w => hasSubstr lowerText w) then str "High"
  else if lowWords.any (fun w => hasSubstr lowerText w) then str "Low"
  else str "Medium"

/-- inferThemeFromKeywords (ai-agent.js lines 525-563). -/
def inferThemeFromKeywords (text : Str) : Str :=
  let lowerText := lowerL text
  if hasSubstr lowerText (str "rate limit") || hasSubstr lowerText (str "429") then
    str "API Rate Limits"
  else if hasSubstr lowerText (str "documentation") || hasSubstr lowerText (str "docs")
      || hasSubstr lowerText (str "unclear") then str "Documentation Quality"
  else if hasSubstr lowerText (str "slow") || hasSubstr lowerText (str "latency")
      || hasSubstr lowerText (str "performance") then str "Performance Issues"
  else if hasSubstr lowerText (str "billing") || hasSubstr lowerText (str "cost")
      || hasSubstr lowerText (str "price") then str "Billing Concerns"
  else if hasSubstr lowerText (str "websocket") || hasSubstr lowerText (str "ws") then
    str "WebSocket Support"
  else if hasSubstr lowerText (str "cold start") then str "Cold Start Latency"
  else if hasSubstr lowerText (str "typescript") || hasSubstr lowerText (str "types") then
    str "TypeScript Support"
  else if hasSubstr lowerText (str "mobile") || hasSubstr lowerText (str "ios")
      || hasSubstr lowerText (str "android") then str "Mobile SDK"
  else if hasSubstr lowerText (str "security") || hasSubstr lowerText (str "compliance")
      || hasSubstr lowerText (str "soc2") then str "Security/Compliance"
  else if hasSubstr lowerText (str "love") || hasSubstr lowerText (str "great")
      || hasSubstr lowerText (str "amazing") then str "Positive Feedback"
  else if hasSubstr lowerText (str "request") || hasSubstr lowerText (str "feature")
      || hasSubstr lowerText (str "please add") then str "Feature Request"
  else str "General Feedback"

/-- Parsed response of the theme-extraction AI call: either field may be
missing (parseAIResponse returns an empty object on failure). -/
structure ParsedThemes where
  themes : Option (List Str)
  confidence : Option ℚ

/-- Parsed response of the sentiment-and-urgency AI call. -/
structure ParsedSentiment where
  sentiment : Option Str
  urgency : Option Str
  summary : Option Str
  valueScore : Option ℚ
  confidence : Option ℚ

/-- Result record of analyzeSentimentAndUrgency. -/
structure SentimentAnalysisOut where
  sentiment : Str
  urgency : Str
  summary : Str
  valueScore : ℚ
  confidence : ℚ
deriving DecidableEq

/-- Result record of analyzeFeedback (themes, sentiment, urgency, summary,
valueScore, confidence). -/
structure AnalysisResult where
  themes : List Str
  sentiment : Str
  urgency : Str
  summary : Str
  valueScore : ℚ
  confidence : ℚ
deriving DecidableEq

/-- JS expression "o || d" for an optional number o with default d
(0 is falsy in JS). -/
def jsOrQ : Option ℚ → ℚ → ℚ
  | some x, d => if x = 0 then d else x
  | none, d => d

/-- extractThemes (ai-agent.js lines 313-362): on a successful call the
parsed themes with default keyword theme and default confidence 0.7; on a
thrown call the keyword theme with confidence 0.5. -/
def extractThemes (feedbackText : Str) : Except Unit ParsedThemes → List Str × ℚ
  | .ok r => (r.themes.getD [inferThemeFromKeywords feedbackText], jsOrQ r.confidence (7/10))
  | .error _ => ([inferThemeFromKeywords feedbackText], 1/2)

/-- getFallbackSentimentAnalysis (ai-agent.js lines 512-520). -/
def getFallbackSentimentAnalysis (feedbackText : Str) : SentimentAnalysisOut :=
  { sentiment := inferSentiment feedbackText,
    urgency := inferUrgency feedbackText,
    summary := feedbackText.take 150 ++ str "...",
    valueScore := 5,
    confidence := 1/2 }

/-- analyzeSentimentAndUrgency (ai-agent.js lines 367-418): parsed fields
with keyword-inference defaults on success, the sentiment fallback on a
thrown call. -/
def analyzeSentimentAndUrgency (feedbackText : Str) :
    Except Unit ParsedSentiment → SentimentAnalysisOut
  | .ok r =>
    { sentiment := jsOrL r.sentiment (inferSentiment feedbackText),
      urgency := jsOrL r.urgency (inferUrgency feedbackText),
      summary := jsOrL r.summary (feedbackText.take 100 ++ str "..."),
      valueScore := jsOrQ r.valueScore 5,
      confidence := jsOrQ r.confidence (7/10) }
  | .error _ => getFallbackSentimentAnalysis feedbackText

/-- getFallbackAnalysis (ai-agent.js lines 498-507). -/
def getFallbackAnalysis (feedbackText : Str) : AnalysisResult :=
  { themes := [inferThemeFromKeywords feedbackText],
    sentiment := inferSentiment feedbackText,
    urgency := inferUrgency feedbackText,
    summary := feedbackText.take 150 ++ str "...",
    valueScore := 5,
    confidence := 1/2 }

/-- analyzeFeedback (ai-agent.js lines 288-308): combine the two sub-call
results; the confidence is the mean of the two sub-confidences. -/
def analyzeFeedback (feedbackText : Str) (themesCall : Except Unit ParsedThemes)
    (sentimentCall : Except Unit ParsedSentiment) : AnalysisResult :=
  let themes := extractThemes feedbackText themesCall
  let s := analyzeSentimentAndUrgency feedbackText sentimentCall
  { themes := themes.1,
    sentiment := s.sentiment,
    urgency := s.urgency,
    summary := s.summary,
    valueScore := s.valueScore,
    confidence := (themes.2 + s.confidence) / 2 }

/-! Helper lemmas about the cleaning pipeline. -/

lemma collapseWsAux_mem {b : Bool} {l : Str} {c : Char}
    (h : c ∈ collapseWsAux b l) : c = ' ' ∨ isWs c = false := by
  induction l generalizing b with
  | nil => simp [collapseWsAux] at h
  | cons d cs ih =>
    cases b with
    | true =>
      rw [collapseWsAux] at h
      by_cases hd : isWs d
      · rw [if_pos hd] at h
        exact ih h
      · rw [if_neg hd] at h
        rcases List.mem_cons.mp h with rfl | h'
        · right
          simpa using hd
        · exact ih h'
    | false =>
      rw [collapseWsAux] at h
      by_cases hd : isWs d
      · rw [if_pos hd] at h
        rcases List.mem_cons.mp h with rfl | h'
        · exact Or.inl rfl
        · exact ih h'
      · rw [if_neg hd] at h
        rcases List.mem_cons.mp h with rfl | h'
        · right
          simpa using hd
        · exact ih h'

lemma collapseWs_no_newline (l : Str) : '\n' ∉ collapseWs l := by
  intro h
  rcases collapseWsAux_mem h with h' | h' <;> simp [isWs] at h'

lemma collapseWsAux_skip (l : Str) :
    collapseWsAux true l = collapseWsAux false (l.dropWhile isWs) := by
  induction l with
  | nil => rfl
  | cons c cs ih =>
    by_cases hc : isWs c
    · rw [collapseWsAux, if_pos hc, List.dropWhile_cons_of_pos hc, ih]
    · rw [collapseWsAux, if_neg hc, List.dropWhile_cons_of_neg hc,
        collapseWsAux, if_neg hc]

lemma collapseNlAux_of_no_newline {l : Str} (hl : '\n' ∉ l) (r : Nat) :
    collapseNlAux r l = l := by
  induction l generalizing r with
  | nil => rfl
  | cons c cs ih =>
    have hc : c ≠ '\n' := fun h => hl (h ▸ List.mem_cons_self c cs)
    rw [collapseNlAux, if_neg hc, ih (fun h => hl (List.mem_cons_of_mem c h))]

lemma collapseNewlines_collapseWs (l : Str) :
    collapseNewlines (collapseWs l) = collapseWs l :=
  collapseNlAux_of_no_newline (collapseWs_no_newline l) 0

lemma clamp_lb (x : Nat) : 1 ≤ min 10 (max 1 x) := by
  simp only [Nat.min_def, Nat.max_def]
  split_ifs <;> omega

lemma clamp_ub (x : Nat) : min 10 (max 1 x) ≤ 10 := by
  simp only [Nat.min_def, Nat.max_def]
  split_ifs <;> omega

lemma clamp_mono {a b : Nat} (h : a ≤ b) :
    min 10 (max 1 a) ≤ min 10 (max 1 b) := by
  simp only [Nat.min_def, Nat.max_def]
  split_ifs <;> omega

/-- C9 counterexample: cleanText does not preserve paragraph breaks.  A run
of three newlines is collapsed to a single space (by the whitespace
collapse, which runs first), not to two newlines, and an existing
two-newline paragraph break is likewise turned into one space. -/
theorem cleanText_newline_counterexample :
    cleanText (str "a\n\n\nb") = str "a b"
    ∧ cleanText (str "a\n\n\nb") ≠ str "a\n\nb"
    ∧ cleanText (str "para1\n\npara2") = str "para1 para2" := by
  decide

/-- C9 (amended): cleanText trims the text, collapses every run of
whitespace (including newlines) to a single space, applies the newline
collapse step (a no-op, since no newline survives the whitespace
collapse), and truncates to 5000 characters; consequently the output never
contains a newline and every whitespace character in it is a space. -/
theorem cleanText_amended : ∀ l : Str,
    cleanText l = (collapseWs (trimWs l)).take 5000
    ∧ (cleanText l).length ≤ 5000
    ∧ '\n' ∉ cleanText l
    ∧ (∀ c ∈ cleanText l, isWs c = true → c = ' ')
    ∧ (∀ c cs, isWs c = true →
        collapseWs (c :: cs) = ' ' :: collapseWs (List.dropWhile isWs cs)) := by
  intro l
  have heq : cleanText l = (collapseWs (trimWs l)).take 5000 := by
    rw [cleanText]
    split
    · next h =>
      have : l = [] := by simpa using h
      subst this
      rfl
    · rw [collapseNewlines_collapseWs]
  refine ⟨heq, ?_, ?_, ?_, ?_⟩
  · rw [heq]
    exact le_trans (List.length_take_le _ _) (le_refl _)
  · rw [heq]
    intro h
    exact collapseWs_no_newline _ (List.take_subset _ _ h)
  · rw [heq]
    intro c hc hws
    rcases collapseWsAux_mem (List.take_subset _ _ hc) with h' | h'
    · exact h'
    · rw [hws] at h'
      cases h'
  · intro c cs hc
    rw [collapseWs, collapseWsAux, if_pos hc, collapseWsAux_skip]
    rfl

/-- C9 witness: the amended theorem applied at concrete inputs. -/
theorem cleanText_amended_witness :
    cleanText (str " x\ty ") = (collapseWs (trimWs (str " x\ty "))).take 5000
    ∧ collapseWs ('\n' :: str "q") = ' ' :: collapseWs (List.dropWhile isWs (str "q")) := by
  have h := cleanText_amended (str " x\ty ")
  exact ⟨h.1, h.2.2.2.2 '\n' (str "q") (by decide)⟩

/-- C7: calculateUrgencyScore is the clamped sum of the base lookup value,
the four keyword boosts and the Enterprise tier boost; the result is always
between 1 and 10 and never below the clamped base score.  The base lookup
sends Critical to 10, High to 8, Medium to 5, Low to 3 and anything else
to 5. -/
theorem calculateUrgencyScore_spec : ∀ u t c : Str,
    calculateUrgencyScore u t c
      = min 10 (max 1 (urgencyBase u
          + (if hasSubstr (lowerL t) (str "urgent") || hasSubstr (lowerL t) (str "critical") then 2 else 0)
          + (if hasSubstr (lowerL t) (str "blocking") || hasSubstr (lowerL t) cant then 1 else 0)
          + (if hasSubstr (lowerL t) (str "production") || hasSubstr (lowerL t) (str "outage") then 2 else 0)
          + (if hasSubstr (lowerL t) (str "data loss") || hasSubstr (lowerL t) (str "security") then 2 else 0)
          + (if c = str "Enterprise" then 1 else 0)))
    ∧ 1 ≤ calculateUrgencyScore u t c
    ∧ calculateUrgencyScore u t c ≤ 10
    ∧ min 10 (max 1 (urgencyBase u)) ≤ calculateUrgencyScore u t c
    ∧ urgencyBase (str "Critical") = 10 ∧ urgencyBase (str "High") = 8
    ∧ urgencyBase (str "Medium") = 5 ∧ urgencyBase (str "Low") = 3
    ∧ urgencyBase (str "Unknown") = 5 := by
  intro u t c
  have hform : calculateUrgencyScore u t c
      = min 10 (max 1 (urgencyBase u
          + (if hasSubstr (lowerL t) (str "urgent") || hasSubstr (lowerL t) (str "critical") then 2 else 0)
          + (if hasSubstr (lowerL t) (str "blocking") || hasSubstr (lowerL t) cant then 1 else 0)
          + (if hasSubstr (lowerL t) (str "production") || hasSubstr (lowerL t) (str "outage") then 2 else 0)
          + (if hasSubstr (lowerL t) (str "data loss") || hasSubstr (lowerL t) (str "security") then 2 else 0)
          + (if c = str "Enterprise" then 1 else 0))) := rfl
  refine ⟨hform, ?_, ?_, ?_, by decide, by decide, by decide, by decide, by decide⟩
  · rw [hform]
    exact clamp_lb _
  · rw [hform]
    exact clamp_ub _
  · rw [hform]
    exact clamp_mono (by omega)

/-! Helper lemmas about the SQL builder. -/

lemma countQ_append (s t : Str) : countQ (s ++ t) = countQ s + countQ t := by
  simp [countQ, List.count_append]

lemma digitChar_ne (d : Nat) : digitChar d ≠ '?' := by
  unfold digitChar
  split <;> decide

lemma natToStrAux_count (fuel n : Nat) : countQ (natToStrAux fuel n) = 0 := by
  induction fuel generalizing n with
  | zero => rfl
  | succ fuel ih =>
    rw [natToStrAux]
    split
    · simp [countQ, List.count_cons, digitChar_ne]
    · rw [countQ_append, ih]
      simp [countQ, List.count_cons, digitChar_ne]

lemma countQ_placeholdersL : ∀ n, countQ (placeholdersL n) = n := by
  intro n
  induction n with
  | zero => decide
  | succ m ih =>
    cases m with
    | zero => decide
    | succ k =>
      have h1 : placeholdersL (k + 2) = str "?" ++ str "," ++ placeholdersL (k + 1) := rfl
      have h2 : countQ (str "?") = 1 := by decide
      have h3 : countQ (str ",") = 0 := by decide
      rw [h1, countQ_append, countQ_append, ih, h2, h3]
      omega

lemma joinSep_count (sep : Str) (hsep : countQ sep = 0) :
    ∀ l : List Str, countQ (joinSep sep l) = (l.map countQ).sum := by
  intro l
  induction l with
  | nil => simp [joinSep, countQ]
  | cons s rest ih =>
    cases rest with
    | nil => simp [joinSep]
    | cons t rest2 =>
      rw [show joinSep sep (s :: t :: rest2) = s ++ sep ++ joinSep sep (t :: rest2) from rfl,
        countQ_append, countQ_append, ih, hsep]
      simp [List.map_cons, List.sum_cons]

lemma urgencyConds_eq (i : QueryIntent) :
    urgencyConds i
      = if 0 < urgLen i then [str "sa.urgency IN (" ++ placeholdersL (urgLen i) ++ str ")"]
        else [] := by
  cases h : i.urgency <;> simp [urgencyConds, urgLen, h]

lemma sentimentConds_eq (i : QueryIntent) :
    sentimentConds i
      = if 0 < sentLen i then [str "sa.sentiment IN (" ++ placeholdersL (sentLen i) ++ str ")"]
        else [] := by
  cases h : i.sentiment <;> simp [sentimentConds, sentLen, h]

lemma urgencyConds_sum (i : QueryIntent) :
    ((urgencyConds i).map countQ).sum = (i.urgency.getD []).length := by
  cases h : i.urgency with
  | none => simp [urgencyConds, h]
  | some l =>
    simp only [urgencyConds, h, Option.getD_some]
    split
    · have h1 : countQ (str "sa.urgency IN (") = 0 := by decide
      have h2 : countQ (str ")") = 0 := by decide
      simp [countQ_append, countQ_placeholdersL, h1, h2]
    · next hlen =>
      simp only [List.map_nil, List.sum_nil]
      omega

lemma sentimentConds_sum (i : QueryIntent) :
    ((sentimentConds i).map countQ).sum = (i.sentiment.getD []).length := by
  cases h : i.sentiment with
  | none => simp [sentimentConds, h]
  | some l =>
    simp only [sentimentConds, h, Option.getD_some]
    split
    · have h1 : countQ (str "sa.sentiment IN (") = 0 := by decide
      have h2 : countQ (str ")") = 0 := by decide
      simp [countQ_append, countQ_placeholdersL, h1, h2]
    · next hlen =>
      simp only [List.map_nil, List.sum_nil]
      omega

lemma productConds_sum (i : QueryIntent) :
    ((productConds i).map countQ).sum = (singleParam i.product).length := by
  cases h : i.product with
  | none => simp [productConds, singleParam, jsTruthyL, h]
  | some s =>
    by_cases he : s.isEmpty <;>
      simp [productConds, singleParam, jsTruthyL, h, he] <;> decide

lemma tierConds_sum (i : QueryIntent) :
    ((tierConds i).map countQ).sum = (singleParam i.customerTier).length := by
  cases h : i.customerTier with
  | none => simp [tierConds, singleParam, jsTruthyL, h]
  | some s =>
    by_cases he : s.isEmpty <;>
      simp [tierConds, singleParam, jsTruthyL, h, he] <;> decide

lemma themeConds_sum (i : QueryIntent) :
    ((themeConds i).map countQ).sum = (themeParam i.theme).length := by
  cases h : i.theme with
  | none => simp [themeConds, themeParam, jsTruthyL, h]
  | some s =>
    by_cases he : s.isEmpty <;>
      simp [themeConds, themeParam, jsTruthyL, h, he] <;> decide

lemma condSum (i : QueryIntent) :
    ((conditionsOf i).map countQ).sum = (paramsOf i).length := by
  simp [conditionsOf, paramsOf, List.map_append, List.sum_append, List.length_append,
    urgencyConds_sum, sentimentConds_sum, productConds_sum, tierConds_sum, themeConds_sum]

lemma generateSQL_count (i : QueryIntent) :
    countQ (generateSQL i).1 = (paramsOf i).length + countQ (jsOrL i.sortBy (str "urgency_score")) := by
  have hheader : countQ sqlHeader = 0 := by decide
  have hand : countQ (str " AND ") = 0 := by decide
  have hgroup : countQ (str " GROUP BY fm.feedback_id") = 0 := by decide
  have horder : countQ (str " ORDER BY ") = 0 := by decide
  have hdesc : countQ (str " DESC, fm.created_date DESC") = 0 := by decide
  have hlimit : countQ (str " LIMIT ") = 0 := by decide
  have hnum : countQ (natToStr (jsOrN i.limit 20)) = 0 := natToStrAux_count _ _
  simp only [generateSQL]
  rw [countQ_append, countQ_append, countQ_append, countQ_append, countQ_append,
    countQ_append, hgroup, horder, hdesc, hlimit, hnum]
  split
  · next hcond =>
    rw [countQ_append, countQ_append, hheader, hand, joinSep_count _ hand, condSum]
    omega
  · next hcond =>
    have hnil : conditionsOf i = [] := by
      cases hc : conditionsOf i with
      | nil => rfl
      | cons a l =>
        exfalso
        rw [hc] at hcond
        simp at hcond
    have hs := condSum i
    rw [hnil] at hs
    simp only [List.map_nil, List.sum_nil] at hs
    rw [hheader]
    omega

lemma conditionsOf_shape {i j : QueryIntent} (h : sameShape i j) :
    conditionsOf i = conditionsOf j := by
  obtain ⟨h1, h2, h3, h4, h5, _, _⟩ := h
  unfold conditionsOf productConds tierConds themeConds
  rw [urgencyConds_eq, urgencyConds_eq, sentimentConds_eq, sentimentConds_eq,
    h1, h2, h3, h4, h5]

lemma generateSQL_shape {i j : QueryIntent} (h : sameShape i j) :
    (generateSQL i).1 = (generateSQL j).1 := by
  have hc : conditionsOf i = conditionsOf j := conditionsOf_shape h
  obtain ⟨_, _, _, _, _, h6, h7⟩ := h
  simp only [generateSQL]
  rw [hc, h6, h7]

/-! Helper lemmas about the keyword parser. -/

lemma parse_sortBy (q : Str) :
    (parseIntentWithKeywords q).sortBy = some (str "urgency_score") := rfl

lemma parse_limit (q : Str) :
    (parseIntentWithKeywords q).limit = some (limitOfQuery (lowerL q)) := rfl

lemma limitOfQuery_listing {lq : Str}
    (h : (hasSubstr lq (str "list") || hasSubstr lq (str "show me") || hasSubstr lq (str "review")) = true) :
    limitOfQuery lq = 50 := by
  simp [limitOfQuery, h]

lemma limitOfQuery_no_listing_none {lq : Str}
    (h : (hasSubstr lq (str "list") || hasSubstr lq (str "show me") || hasSubstr lq (str "review")) = false)
    (hd : firstDigitRun lq = none) :
    limitOfQuery lq = 20 := by
  simp [limitOfQuery, h, hd]

lemma limitOfQuery_no_listing_some {lq ds : Str}
    (h : (hasSubstr lq (str "list") || hasSubstr lq (str "show me") || hasSubstr lq (str "review")) = false)
    (hd : firstDigitRun lq = some ds) :
    limitOfQuery lq = if 0 < digitsToNat ds ∧ digitsToNat ds ≤ 100 then digitsToNat ds else 20 := by
  simp [limitOfQuery, h, hd]

lemma limitOfQuery_bounds (lq : Str) : 1 ≤ limitOfQuery lq ∧ limitOfQuery lq ≤ 100 := by
  cases hd : firstDigitRun lq <;>
    cases hl : (hasSubstr lq (str "list") || hasSubstr lq (str "show me") || hasSubstr lq (str "review")) <;>
      simp [limitOfQuery, hd, hl] <;> split_ifs <;> omega

/-- C1 counterexample: generateSQL performs no validation before
interpolating the sort key and the limit.  A QueryIntent whose sortBy is an
injection payload and whose limit is 999 (outside the interval from 1
to 100) yields a SQL string that contains the payload verbatim and the
clause LIMIT 999. -/
theorem generateSQL_no_validation_counterexample :
    hasSubstr (generateSQL injectionIntent).1 (str "DROP TABLE") = true
    ∧ hasSubstr (generateSQL injectionIntent).1 (str " LIMIT 999") = true
    ∧ ¬(999 ≤ 100) := by
  refine ⟨by decide, by decide, by decide⟩

/-- C1 (amended): the only intent-dependent values interpolated into the
SQL string are the sort key and the numeric limit — the string is
independent of all filter values — but generateSQL itself validates
neither; instead, every intent the program passes to it (produced by
parseIntentWithKeywords) carries the fixed allowed sort column
urgency_score and a limit already validated into the interval from 1
to 100. -/
theorem generateSQL_interp_amended :
    (∀ i j : QueryIntent, sameShape i j → (generateSQL i).1 = (generateSQL j).1)
    ∧ (∀ q : Str, (parseIntentWithKeywords q).sortBy = some (str "urgency_score")
        ∧ str "urgency_score" ∈ allowedSortColumns
        ∧ ∃ n, (parseIntentWithKeywords q).limit = some n ∧ 1 ≤ n ∧ n ≤ 100) := by
  constructor
  · intro i j h
    exact generateSQL_shape h
  · intro q
    exact ⟨rfl, by decide,
      ⟨limitOfQuery (lowerL q), parse_limit q,
        (limitOfQuery_bounds _).1, (limitOfQuery_bounds _).2⟩⟩

/-- C1 witness: the amended theorem at concrete inputs. -/
theorem generateSQL_interp_witness :
    (parseIntentWithKeywords (str "critical workers issues")).sortBy = some (str "urgency_score")
    ∧ (generateSQL
        { urgency := none, sentiment := none, product := none, theme := none,
          customerTier := some (str "Enterprise"), sortBy := none, limit := none }).1
      = (generateSQL
        { urgency := none, sentiment := none, product := none, theme := none,
          customerTier := some (str "Hacker"), sortBy := none, limit := none }).1 :=
  ⟨(generateSQL_interp_amended.2 (str "critical workers issues")).1,
    generateSQL_interp_amended.1 _ _ (by unfold sameShape; decide)⟩

/-- C2: the parameter list is exactly the urgency values, the sentiment
values, the product, the customer tier and the percent-wrapped theme, in
that order; the number of placeholders in the SQL string equals the number
of parameters (plus whatever the sort key itself contributes); and the SQL
string does not depend on any filter value (two intents of the same shape
compile to the same string), so no filter value is interpolated into the
query text. -/
theorem generateSQL_params_spec : ∀ i : QueryIntent,
    (generateSQL i).2
      = i.urgency.getD [] ++ i.sentiment.getD [] ++ singleParam i.product
        ++ singleParam i.customerTier ++ themeParam i.theme
    ∧ countQ (generateSQL i).1
        = ((generateSQL i).2).length + countQ (jsOrL i.sortBy (str "urgency_score"))
    ∧ (∀ j, sameShape i j → (generateSQL i).1 = (generateSQL j).1) := by
  intro i
  refine ⟨rfl, ?_, fun j h => generateSQL_shape h⟩
  have h2 : (generateSQL i).2 = paramsOf i := rfl
  rw [h2, generateSQL_count]

/-- C2 witness: identical SQL for same-shaped intents with different
filter values, and the parameter list of a concrete intent. -/
theorem generateSQL_params_witness :
    (generateSQL
      { urgency := some [str "Critical", str "High"], sentiment := some [str "Negative"],
        product := some (str "Workers"), theme := some (str "latency"),
        customerTier := none, sortBy := some (str "urgency_score"), limit := some 20 }).1
      = (generateSQL
      { urgency := some [str "EVIL1", str "EVIL2"], sentiment := some [str "EVIL3"],
        product := some (str "pwned"), theme := some (str "gotcha"),
        customerTier := none, sortBy := some (str "urgency_score"), limit := some 20 }).1 := by
  have h := generateSQL_params_spec
    { urgency := some [str "Critical", str "High"], sentiment := some [str "Negative"],
      product := some (str "Workers"), theme := some (str "latency"),
      customerTier := none, sortBy := some (str "urgency_score"), limit := some 20 }
  exact h.2.2
    { urgency := some [str "EVIL1", str "EVIL2"], sentiment := some [str "EVIL3"],
      product := some (str "pwned"), theme := some (str "gotcha"),
      customerTier := none, sortBy := some (str "urgency_score"), limit := some 20 }
    (by unfold sameShape; decide)

/-- C3 counterexample: in the query "show me 5" the explicit number 5 is in
the interval from 1 to 100, yet the limit is 50 — the listing-keyword rule
runs after the number check and overrides it. -/
theorem parseIntent_limit_counterexample :
    (parseIntentWithKeywords (str "show me 5")).limit = some 50
    ∧ firstDigitRun (lowerL (str "show me 5")) = some (str "5")
    ∧ digitsToNat (str "5") = 5
    ∧ (50 : Nat) ≠ 5 := by
  refine ⟨by decide, by decide, by decide, by decide⟩

/-- C3 (amended): when the query contains a listing keyword (list, show me
or review) the limit is 50 regardless of any explicit number; an explicit
integer in the interval from 1 to 100 becomes the limit only when no
listing keyword is present — the widening rule wins over the explicit
number, not the other way round. -/
theorem parseIntent_limit_precedence : ∀ q : Str,
    ((hasSubstr (lowerL q) (str "list") || hasSubstr (lowerL q) (str "show me")
        || hasSubstr (lowerL q) (str "review")) = true →
      (parseIntentWithKeywords q).limit = some 50)
    ∧ ((hasSubstr (lowerL q) (str "list") || hasSubstr (lowerL q) (str "show me")
        || hasSubstr (lowerL q) (str "review")) = false →
      ∀ ds, firstDigitRun (lowerL q) = some ds →
        0 < digitsToNat ds → digitsToNat ds ≤ 100 →
        (parseIntentWithKeywords q).limit = some (digitsToNat ds)) := by
  intro q
  constructor
  · intro h
    rw [parse_limit, limitOfQuery_listing h]
  · intro h ds hd h1 h2
    rw [parse_limit, limitOfQuery_no_listing_some h hd, if_pos ⟨h1, h2⟩]

/-- C3 witness: the amended theorem at the concrete query "top 7". -/
theorem parseIntent_limit_precedence_witness :
    (parseIntentWithKeywords (str "top 7")).limit = some (digitsToNat (str "7")) :=
  (parseIntent_limit_precedence (str "top 7")).2 (by decide) (str "7")
    (by decide) (by decide) (by decide)

/-- C4: the parsed limit is always in the interval from 1 to 100: 20 when
the query has no embedded number and no listing keyword, 50 whenever a
listing keyword is present, and a query whose embedded number lies outside
the interval (such as 999) still gets 20 or 50, never that number. -/
theorem parseIntent_limit_invariant : ∀ q : Str,
    (∃ n, (parseIntentWithKeywords q).limit = some n ∧ 1 ≤ n ∧ n ≤ 100)
    ∧ ((hasSubstr (lowerL q) (str "list") || hasSubstr (lowerL q) (str "show me")
        || hasSubstr (lowerL q) (str "review")) = true →
      (parseIntentWithKeywords q).limit = some 50)
    ∧ ((hasSubstr (lowerL q) (str "list") || hasSubstr (lowerL q) (str "show me")
        || hasSubstr (lowerL q) (str "review")) = false →
      firstDigitRun (lowerL q) = none →
      (parseIntentWithKeywords q).limit = some 20)
    ∧ (∀ ds, firstDigitRun (lowerL q) = some ds → 100 < digitsToNat ds →
      (parseIntentWithKeywords q).limit = some 20
      ∨ (parseIntentWithKeywords q).limit = some 50) := by
  intro q
  refine ⟨⟨limitOfQuery (lowerL q), parse_limit q,
      (limitOfQuery_bounds _).1, (limitOfQuery_bounds _).2⟩, ?_, ?_, ?_⟩
  · intro h
    rw [parse_limit, limitOfQuery_listing h]
  · intro h hd
    rw [parse_limit, limitOfQuery_no_listing_none h hd]
  · intro ds hd hgt
    cases hl : (hasSubstr (lowerL q) (str "list") || hasSubstr (lowerL q) (str "show me")
        || hasSubstr (lowerL q) (str "review")) with
    | true =>
      right
      rw [parse_limit, limitOfQuery_listing hl]
    | false =>
      left
      rw [parse_limit, limitOfQuery_no_listing_some hl hd, if_neg (by omega)]

/-- C4 witness: the adversarial query "999" keeps the default limit. -/
theorem parseIntent_limit_invariant_witness :
    (parseIntentWithKeywords (str "999")).limit = some 20
    ∨ (parseIntentWithKeywords (str "999")).limit = some 50 :=
  (parseIntent_limit_invariant (str "999")).2.2.2 (str "999") (by decide) (by decide)

/-- C5: in simple-listing mode (the query mentions review, show me or list
and none of urgent, critical, negative, positive) the urgency and
sentiment filters stay null while the tier and product detection still
applies; concretely, "list feedback" parses to null urgency, null
sentiment and limit 50. -/
theorem parseIntent_simple_listing :
    (∀ q : Str, isSimpleReviewQuery (lowerL q) = true →
      (parseIntentWithKeywords q).urgency = none
      ∧ (parseIntentWithKeywords q).sentiment = none
      ∧ (parseIntentWithKeywords q).customerTier = tierOf (lowerL q)
      ∧ (parseIntentWithKeywords q).product = productOf (lowerL q))
    ∧ ((parseIntentWithKeywords (str "list feedback")).urgency = none
      ∧ (parseIntentWithKeywords (str "list feedback")).sentiment = none
      ∧ (parseIntentWithKeywords (str "list feedback")).limit = some 50) := by
  constructor
  · intro q h
    refine ⟨?_, ?_, rfl, rfl⟩
    · show (if isSimpleReviewQuery (lowerL q) then none else urgencyOf (lowerL q)) = none
      rw [h]
      rfl
    · show (if isSimpleReviewQuery (lowerL q) then none else sentimentOf (lowerL q)) = none
      rw [h]
      rfl
  · refine ⟨by decide, by decide, by decide⟩

/-- C5 witness: the universal part applied at a concrete simple-listing
query. -/
theorem parseIntent_simple_listing_witness :
    (parseIntentWithKeywords (str "show me workers feedback")).urgency = none
    ∧ (parseIntentWithKeywords (str "show me workers feedback")).sentiment = none := by
  have h := parseIntent_simple_listing.1 (str "show me workers feedback") (by decide)
  exact ⟨h.1, h.2.1⟩

/-- C10: tier detection is a raw substring check in priority order
enterprise, pro, free: any query containing "pro" anywhere (and not
"enterprise") gets tier Pro, and any query containing "free" (and neither
"enterprise" nor "pro") gets tier Free — even inside longer words of
queries that never mention a tier, as in "product problems" and
"carefree accounts". -/
theorem parseIntent_tier_substring :
    (∀ q : Str,
      (hasSubstr (lowerL q) (str "enterprise") = false →
        hasSubstr (lowerL q) (str "pro") = true →
        (parseIntentWithKeywords q).customerTier = some (str "Pro"))
      ∧ (hasSubstr (lowerL q) (str "enterprise") = false →
        hasSubstr (lowerL q) (str "pro") = false →
        hasSubstr (lowerL q) (str "free") = true →
        (parseIntentWithKeywords q).customerTier = some (str "Free")))
    ∧ (parseIntentWithKeywords (str "product problems")).customerTier = some (str "Pro")
    ∧ (parseIntentWithKeywords (str "carefree accounts")).customerTier = some (str "Free") := by
  refine ⟨?_, by decide, by decide⟩
  intro q
  have hq : (parseIntentWithKeywords q).customerTier = tierOf (lowerL q) := rfl
  constructor
  · intro h1 h2
    rw [hq]
    simp [tierOf, h1, h2]
  · intro h1 h2 h3
    rw [hq]
    simp [tierOf, h1, h2, h3]

/-- C10 witness: the universal part at the concrete query "approved
changes". -/
theorem parseIntent_tier_substring_witness :
    (parseIntentWithKeywords (str "approved changes")).customerTier = some (str "Pro") :=
  (parseIntent_tier_substring.1 (str "approved changes")).1 (by decide) (by decide)

/-- C6 counterexample: the text "love but hate" has exactly one positive
and one negative keyword match (equal, positive counts), yet the keyword
sentiment inference returns Frustrated, not Neutral, because a negative
keyword occurs together with the substring "but". -/
theorem inferSentiment_tie_counterexample :
    countMatches (lowerL (str "love but hate")) positiveWords = 1
    ∧ countMatches (lowerL (str "love but hate")) negativeWords = 1
    ∧ inferSentiment (str "love but hate") = str "Frustrated"
    ∧ str "Frustrated" ≠ str "Neutral" := by
  refine ⟨by decide, by decide, by decide, by decide⟩

/-- C6 (amended): for text with an equal, positive number of positive and
negative keyword matches, the keyword sentiment inference returns Neutral
provided additionally no frustration keyword occurs and the text does not
contain the substring "but" (otherwise the Frustrated branch fires
first). -/
theorem inferSentiment_tie_amended : ∀ t : Str,
    countMatches (lowerL t) positiveWords = countMatches (lowerL t) negativeWords →
    0 < countMatches (lowerL t) positiveWords →
    countMatches (lowerL t) frustratedWords = 0 →
    hasSubstr (lowerL t) (str "but") = false →
    inferSentiment t = str "Neutral" := by
  intro t heq hpos hfrust hbut
  unfold inferSentiment
  rw [if_neg, if_neg, if_neg]
  · omega
  · omega
  · rintro (h | ⟨_, h⟩)
    · omega
    · rw [hbut] at h
      cases h

/-- C6 witness: the amended theorem at the concrete text
"great awful day". -/
theorem inferSentiment_tie_witness :
    inferSentiment (str "great awful day") = str "Neutral" :=
  inferSentiment_tie_amended (str "great awful day") (by decide) (by decide)
    (by decide) (by decide)

/-- C8: when both AI sub-calls throw, analyzeFeedback returns (it cannot
throw) exactly the keyword-inference fallback: the single keyword theme,
the keyword sentiment and urgency, the 150-character prefix of the text
followed by three dots, valueScore 5 and confidence 0.5. -/
theorem analyzeFeedback_fallback : ∀ feedbackText : Str,
    analyzeFeedback feedbackText (Except.error ()) (Except.error ())
      = getFallbackAnalysis feedbackText
    ∧ getFallbackAnalysis feedbackText
      = { themes := [inferThemeFromKeywords feedbackText],
          sentiment := inferSentiment feedbackText,
          urgency := inferUrgency feedbackText,
          summary := feedbackText.take 150 ++ str "...",
          valueScore := 5,
          confidence := 1/2 } := by
  intro feedbackText
  constructor
  · simp only [analyzeFeedback, extractThemes, analyzeSentimentAndUrgency,
      getFallbackSentimentAnalysis, getFallbackAnalysis, AnalysisResult.mk.injEq]
    norm_num
  · rfl
